import Mathlib

/-!
Verification of the CFAP (Causal Funnel Attribution Platform) repository
against its natural-language specification.

The development shallowly embeds the parts of the code the claims are
about: the frontend HTTP helper `fetchWithAuth` and the two file-upload
handlers, the Terraform wiring of the uploads bucket, and — modelled from
the spec where the Python services are not among the provided sources —
the Event Writer, Control Plane and Analysis Worker.
-/

namespace CFAP

/-! ## Keyed tables

Both the JavaScript `Headers` object and the keyed stores (Results
Store, Deduplication Store) are modelled as association lists with `set`
replacing an existing entry in place and `get` returning the first
match. -/

def lookupFirst {α : Type} (l : List (String × α)) (k : String) : Option α :=
  (l.find? (fun p => p.1 == k)).map (fun p => p.2)

def setFirst {α : Type} (l : List (String × α)) (k : String) (v : α) : List (String × α) :=
  if l.any (fun p => p.1 == k) then
    l.map (fun p => if p.1 == k then (k, v) else p)
  else
    l ++ [(k, v)]

/-! ## Headers model

All call sites in the repository use a single consistent casing for each
header name ("Authorization", "Content-Type"), so names are compared as
exact strings. -/

def headersGet (hs : List (String × String)) (k : String) : Option String :=
  lookupFirst hs k

def headersSet (hs : List (String × String)) (k v : String) : List (String × String) :=
  setFirst hs k v

/-! ## fetchWithAuth (src/unnamed/part_002)

```js
const headers = new Headers(options.headers || \x7b\x7d);
if (token) headers.set("Authorization", `Bearer $\x7btoken\x7d`);
headers.set("Content-Type", headers.get("Content-Type") || "application/json");
```

`token` is `null` when no Firebase user is signed in (`getIdToken`
returns `null`), modelled as `Option String`; JavaScript truthiness also
treats the empty string as absent, which the embedding preserves. -/

/-- `if (token) headers.set("Authorization", ...)` — JavaScript
truthiness skips both `null` and the empty string. -/
def authStep (token : Option String) (hs : List (String × String)) :
    List (String × String) :=
  match token with
  | some t => if t.isEmpty then hs else headersSet hs "Authorization" ("Bearer " ++ t)
  | none => hs

/-- `headers.get("Content-Type") || "application/json"` — `||` falls
through on `null` and on the empty string. -/
def contentTypeDefault (v : Option String) : String :=
  match v with
  | some v => if v.isEmpty then "application/json" else v
  | none => "application/json"

def fetchWithAuthHeaders (token : Option String) (callerHeaders : List (String × String)) :
    List (String × String) :=
  let hs := authStep token callerHeaders
  headersSet hs "Content-Type" (contentTypeDefault (headersGet hs "Content-Type"))

/-- A minimal JSON value type standing for the result of `res.json()`. -/
inductive Json where
  | null : Json
  | str : String → Json
  | num : Int → Json
  | obj : List (String × String) → Json
deriving DecidableEq, Repr

/-- The observable part of a `fetch` response used by `fetchWithAuth`:
`ok`, `status`, the body text (`res.text()`), and the outcome of
`res.json()` — `some v` when the body parses, `none` when parsing
rejects (the `.catch(() => null)` path). -/
structure HttpResponse where
  ok : Bool
  status : Nat
  text : String
  jsonResult : Option Json
deriving DecidableEq, Repr

/-- The `Error` thrown by `fetchWithAuth` on a non-ok response: its
`message` and the attached `err.response = res`. -/
structure FetchError where
  message : String
  response : HttpResponse
deriving DecidableEq, Repr

/-- Response handling of `fetchWithAuth`:

```js
if (!res.ok) \x7b
  const text = await res.text();
  const err = new Error(`Request failed $\x7bres.status\x7d: $\x7btext\x7d`);
  err.response = res;
  throw err;
\x7d
return res.json().catch(() => null);
```
-/
def fetchWithAuthResponse (res : HttpResponse) : Except FetchError (Option Json) :=
  if res.ok then
    Except.ok res.jsonResult
  else
    Except.error { message := "Request failed " ++ toString res.status ++ ": " ++ res.text,
                   response := res }

/-! ## Upload handlers -/

/-- The kind of body an outgoing request carries. `fileBytes` are the raw
bytes of the selected file (a direct `PUT body: file`), `formWithFile` is
a multipart `FormData` with the file appended, `jsonBody` a string body. -/
inductive BodyKind where
  | emptyBody : BodyKind
  | jsonBody : String → BodyKind
  | fileBytes : BodyKind
  | formWithFile : BodyKind
deriving DecidableEq, Repr

/-- An outgoing HTTP request issued by a frontend upload handler. -/
structure UploadRequest where
  method : String
  path : String
  body : BodyKind
deriving DecidableEq, Repr

/-- Does the request carry the file's bytes (either raw or inside a
multipart form)? -/
def carriesFileBytes (r : UploadRequest) : Bool :=
  match r.body with
  | BodyKind.fileBytes => true
  | BodyKind.formWithFile => true
  | _ => false

/-- The request trace of `upload` in
src/frontend/src/components/FileUpload.jsx: first
`POST /v1/uploads/url` with `\x7bfilename\x7d`, then, with `url` taken from
the response body, a direct `PUT` of the file bytes to `url`. -/
def uploadJsxTrace (filename : String) (url : String) : List UploadRequest :=
  [ { method := "POST", path := "/v1/uploads/url",
      body := BodyKind.jsonBody ("\x7b\"filename\":\"" ++ filename ++ "\"\x7d") },
    { method := "PUT", path := url, body := BodyKind.fileBytes } ]

/-- Outcome of one `await fetchWithAuth(...)` call as seen by a caller:
it either resolves or throws with a message. -/
inductive CallOutcome where
  | resolved : CallOutcome
  | thrown : String → CallOutcome
deriving DecidableEq, Repr

/-- The JSON body of the fallback call in part_007:
`JSON.stringify(\x7b campaign_id: "demo-campaign" \x7d)`. -/
def didRequestBody : String := "\x7b\"campaign_id\":\"demo-campaign\"\x7d"

/-- The ingest attempt of `handleUpload` in src/unnamed/part_007: a
multipart `FormData` with the file, POSTed to "/api/ingest". -/
def ingestRequest : UploadRequest :=
  { method := "POST", path := "/api/ingest", body := BodyKind.formWithFile }

/-- The fallback request of `handleUpload` in src/unnamed/part_007. -/
def didRequest : UploadRequest :=
  { method := "POST", path := "/api/analysis/did", body := BodyKind.jsonBody didRequestBody }

/-- `handleUpload` from src/unnamed/part_007, as a function of whether a
file is selected and of the outcomes of the two `fetchWithAuth` calls.
Returns the final user-visible status (`none` when the handler returned
before setting any status beyond "Uploading...", i.e. never here once a
file is present) and the list of requests issued, in order:

```js
try \x7b
  try \x7b
    await fetchWithAuth(ingestUrl, \x7b method: "POST", body: form, headers: \x7b\x7d \x7d);
    setStatus("Uploaded to ingest endpoint");
    return;
  \x7d catch (err) \x7b \x7d
  await fetchWithAuth("/api/analysis/did",
    \x7b method: "POST", body: JSON.stringify(\x7b campaign_id: "demo-campaign" \x7d) \x7d);
  setStatus("Processed by analysis endpoint (demo)");
\x7d catch (err) \x7b
  setStatus(`Error: $\x7berr.message\x7d`);
\x7d
```
-/
def handleUpload (hasFile : Bool) (ingestOutcome didOutcome : CallOutcome) :
    Option String × List UploadRequest :=
  if !hasFile then
    (none, [])
  else
    match ingestOutcome with
    | CallOutcome.resolved => (some "Uploaded to ingest endpoint", [ingestRequest])
    | CallOutcome.thrown _ =>
      match didOutcome with
      | CallOutcome.resolved =>
          (some "Processed by analysis endpoint (demo)", [ingestRequest, didRequest])
      | CallOutcome.thrown m =>
          (some ("Error: " ++ m), [ingestRequest, didRequest])

/-- The request trace of `handleUpload` in src/unnamed/part_007 when the
ingest call resolves (its first, preferred path). -/
def handleUploadTrace : List UploadRequest :=
  (handleUpload true CallOutcome.resolved CallOutcome.resolved).2

/-- A trace follows the spec's signed-URL upload flow when its first
request is `POST /v1/uploads/url` and its second is a direct `PUT` of the
file bytes, and no request carrying file bytes goes anywhere else. -/
def usesSignedUrlFlow (trace : List UploadRequest) : Bool :=
  match trace with
  | first :: second :: rest =>
      first.method == "POST" && first.path == "/v1/uploads/url" &&
      second.method == "PUT" && second.body == BodyKind.fileBytes &&
      (rest.all (fun r => !carriesFileBytes r)) && !carriesFileBytes first
  | _ => false

/-! ## Terraform wiring of the uploads bucket (src/unnamed/part_005,
a superset of src/terraform/pubsub.tf) -/

/-- A `google_storage_notification` resource. -/
structure StorageNotification where
  bucket : String
  topic : String
  payload_format : String
deriving DecidableEq, Repr

/-- A `google_cloudfunctions_function` resource: its event trigger and,
from `environment_variables`, the BigQuery table it targets. -/
structure CloudFunction where
  name : String
  entry_point : String
  trigger_event_type : String
  trigger_resource : String
  target_table : String
deriving DecidableEq, Repr

/-- The resources declared in the Terraform sources that touch the
uploads path. -/
structure TerraformConfig where
  topics : List String
  buckets : List String
  notifications : List StorageNotification
  functions : List CloudFunction
deriving DecidableEq, Repr

/-- `google_storage_bucket.uploads_bucket`: `"$\x7bvar.project_id\x7d-cfap-uploads"`. -/
def uploads_bucket (project_id : String) : String :=
  project_id ++ "-cfap-uploads"

/-- The `TARGET_TABLE` environment variable of the csv-ingest function:
`"$\x7bvar.project_id\x7d:cfap_analytics.standard_events"` — the canonical
events table (the Event Store). -/
def standard_events_table (project_id : String) : String :=
  project_id ++ ":cfap_analytics.standard_events"

/-- The Terraform configuration of src/unnamed/part_005: the `raw-events`
topic, the uploads and functions-source buckets, the storage notification
`uploads_to_pubsub` from the uploads bucket to `raw-events`, and the
`csv_ingest` Cloud Function triggered by `google.storage.object.finalize`
on the uploads bucket with entry point `gcs_csv_to_bq` writing to the
`standard_events` table. -/
def pubsubTf (project_id : String) : TerraformConfig :=
  { topics := ["raw-events"],
    buckets := [uploads_bucket project_id, project_id ++ "-cfap-functions"],
    notifications :=
      [ { bucket := uploads_bucket project_id, topic := "raw-events",
          payload_format := "JSON_API_V1" } ],
    functions :=
      [ { name := "csv-ingest", entry_point := "gcs_csv_to_bq",
          trigger_event_type := "google.storage.object.finalize",
          trigger_resource := uploads_bucket project_id,
          target_table := standard_events_table project_id } ] }

/-- Does the configuration route object-creation events on `bucket` to
the `raw-events` topic via a storage-change notification? -/
def notifiesRawEvents (cfg : TerraformConfig) (bucket : String) : Bool :=
  cfg.notifications.any (fun n => n.bucket == bucket && n.topic == "raw-events")

/-- The functions that are triggered directly by object finalization on
`bucket` and write into the Event Store (`standard_events`) themselves —
routes that bypass the raw-events message path. -/
def storeBypassRoutes (cfg : TerraformConfig) (project_id bucket : String) :
    List CloudFunction :=
  cfg.functions.filter (fun f =>
    f.trigger_event_type == "google.storage.object.finalize" &&
    f.trigger_resource == bucket &&
    f.target_table == standard_events_table project_id)

/-! ## Event Writer (spec-modelled)

Modelled from the spec: the Event Writer component (§4.2,
`ingestion_subscriber` in the repository's directory map) is not among
the provided sources, so `write_if_absent` is taken from the spec's
words: check the Deduplication Store for the key; if absent, insert the
key and the Event row as one atomic unit; if present, discard silently.
Concurrent and duplicate deliveries are modelled as an arbitrary
sequence of messages — the spec resolves the insert race by the store's
atomic conflict semantics, so every interleaving linearizes to such a
sequence. -/

/-- An ingestion message / Event row
`\x7bidempotency_key, occurred_at, source, payload\x7d`. -/
structure EventMsg where
  idempotency_key : String
  occurred_at : Nat
  source : String
  payload : String
deriving DecidableEq, Repr

/-- The Deduplication Store together with the append-only Event Store. -/
structure WriterState where
  dedup_keys : List String
  events : List EventMsg
deriving DecidableEq, Repr

def initialWriterState : WriterState :=
  { dedup_keys := [], events := [] }

/-- Modelled from the spec: `write_if_absent(idempotency_key, event)` of
the Event Writer (§4.2). -/
def write_if_absent (s : WriterState) (m : EventMsg) : WriterState :=
  if s.dedup_keys.contains m.idempotency_key then
    s
  else
    { dedup_keys := m.idempotency_key :: s.dedup_keys, events := s.events ++ [m] }

/-- Process a delivery sequence (duplicates and redeliveries included). -/
def processAll (s : WriterState) (msgs : List EventMsg) : WriterState :=
  msgs.foldl write_if_absent s

/-- Number of Event rows visible in the Event Store for a given key. -/
def countKey (events : List EventMsg) (k : String) : Nat :=
  (events.filter (fun m => m.idempotency_key == k)).length

/-! ## Job lifecycle (spec-modelled)

Modelled from the spec: the Control Plane (`control_plane_api/app.py`)
and the Analysis Worker (`causal_engine/worker.py`) are not among the
provided sources (only the Control Plane README is), so the job state
machine of §4.5/§5 is taken from the spec's words: every mutation of a
job is a compare-and-swap on `status`. -/

inductive JobStatus where
  | QUEUED : JobStatus
  | RUNNING : JobStatus
  | SUCCEEDED : JobStatus
  | FAILED : JobStatus
  | CANCELLED : JobStatus
deriving DecidableEq, Repr

/-- The conditional status mutations of §4.3, §4.5 and §5: the worker's
claim (QUEUED→RUNNING), success (RUNNING→SUCCEEDED), failure
(RUNNING→FAILED), cancellation while queued (QUEUED→CANCELLED), and the
reconciliation sweep marking an unpublishable queued job FAILED. -/
inductive JobOp where
  | claimJob : JobOp
  | succeed : JobOp
  | fail : String → JobOp
  | cancel : JobOp
  | sweepFail : String → JobOp
deriving DecidableEq, Repr

/-- Modelled from the spec: apply one compare-and-swap status mutation;
when the current status differs from the expected one the CAS fails and
the operation is discarded (§4.5 step 1, §5). -/
def applyOp (st : JobStatus) (op : JobOp) : JobStatus :=
  match op, st with
  | JobOp.claimJob, JobStatus.QUEUED => JobStatus.RUNNING
  | JobOp.succeed, JobStatus.RUNNING => JobStatus.SUCCEEDED
  | JobOp.fail _, JobStatus.RUNNING => JobStatus.FAILED
  | JobOp.cancel, JobStatus.QUEUED => JobStatus.CANCELLED
  | JobOp.sweepFail _, JobStatus.QUEUED => JobStatus.FAILED
  | _, s => s

/-- Terminal statuses in the sense of the monotonicity invariant. -/
def terminal (st : JobStatus) : Bool :=
  match st with
  | JobStatus.SUCCEEDED => true
  | JobStatus.FAILED => true
  | _ => false

/-- A Job row of the Job Registry. -/
structure Job where
  job_id : String
  model_name : String
  params : String
  priority : Int
  status : JobStatus
  error : Option String
deriving DecidableEq, Repr

/-! ## Control Plane submit_job (spec-modelled)

Modelled from the spec: `submit_job` of §4.3 (`control_plane_api/app.py`
is not among the provided sources; its README documents only that
`POST /v1/analysis/run` publishes a job message). -/

inductive SubmitError where
  | UnknownModel : SubmitError
  | InvalidParams : SubmitError
deriving DecidableEq, Repr

/-- HTTP status of a synchronous submission error (§6: `400 UnknownModel`,
§7: ValidationError is 4xx). -/
def submitErrorStatus (e : SubmitError) : Nat :=
  match e with
  | SubmitError.UnknownModel => 400
  | SubmitError.InvalidParams => 400

/-- Modelled from the spec: `submit_job(caller, model_name, params,
priority)` (§4.3). Validates `model_name` against the Model Registry
(here the list of registered names), validates `params` are
JSON-serializable, then writes a Job row with status QUEUED. Returns the
outcome together with the resulting Job Registry. -/
def submit_job (registry : List String) (jobs : List Job) (jid model_name params : String)
    (priority : Int) (paramsSerializable : Bool) :
    Except SubmitError String × List Job :=
  if !registry.contains model_name then
    (Except.error SubmitError.UnknownModel, jobs)
  else if !paramsSerializable then
    (Except.error SubmitError.InvalidParams, jobs)
  else
    (Except.ok jid,
     jobs ++ [{ job_id := jid, model_name := model_name, params := params,
                priority := priority, status := JobStatus.QUEUED, error := none }])

/-! ## Analysis Worker execution step (spec-modelled)

Modelled from the spec: step (4) of the Analysis Worker (§4.5), whose
implementation (`causal_engine/worker.py`) is not among the provided
sources: on success write the Result row and set SUCCEEDED in one
logical step; on exception or timeout set FAILED with the captured error
and do not write a Result row. Error strings follow the taxonomy of §7
(`PluginExecutionError`, `PluginTimeout`). -/

/-- Outcome of running `load_data` then `run_analysis` under the
execution timeout. -/
inductive PluginOutcome where
  | success : String → PluginOutcome
  | raised : String → PluginOutcome
  | timedOut : PluginOutcome
deriving DecidableEq, Repr

/-- Look up the Result row for a job id in the Results Store. -/
def resultFor (results : List (String × String)) (jid : String) : Option String :=
  lookupFirst results jid

/-- Overwrite-or-insert a Result row (at most one row per job_id; a
retried job overwrites). -/
def upsertResult (results : List (String × String)) (jid r : String) :
    List (String × String) :=
  setFirst results jid r

/-- Modelled from the spec: the worker's completion step for one RUNNING
job (§4.5 step 4), returning the updated Job row and Results Store. -/
def process_job (j : Job) (results : List (String × String)) (outcome : PluginOutcome) :
    Job × List (String × String) :=
  match outcome with
  | PluginOutcome.success r =>
      ({ j with status := JobStatus.SUCCEEDED, error := none },
       upsertResult results j.job_id r)
  | PluginOutcome.raised m =>
      ({ j with status := JobStatus.FAILED,
                error := some ("PluginExecutionError: " ++ m) }, results)
  | PluginOutcome.timedOut =>
      ({ j with status := JobStatus.FAILED,
                error := some "PluginTimeout: execution exceeded the configured timeout" },
       results)

/-! ## Lemmas about keyed tables -/

theorem lookupFirst_map_replace_self {α : Type} (k : String) (v : α)
    (l : List (String × α)) (h : l.any (fun p => p.1 == k) = true) :
    lookupFirst (l.map (fun p => if p.1 == k then (k, v) else p)) k = some v := by
  induction l with
  | nil => simp at h
  | cons a t ih =>
    by_cases ha : (a.1 == k) = true
    · simp [lookupFirst, List.find?, ha]
    · simp only [List.any_cons, Bool.or_eq_true] at h
      rcases h with h | h
      · exact absurd h ha
      · simpa [lookupFirst, List.find?, ha] using ih h

theorem lookupFirst_map_replace_other {α : Type} (k : String) (v : α) (k' : String)
    (hk : k' ≠ k) (l : List (String × α)) :
    lookupFirst (l.map (fun p => if p.1 == k then (k, v) else p)) k' = lookupFirst l k' := by
  induction l with
  | nil => rfl
  | cons a t ih =>
    by_cases ha : (a.1 == k) = true
    · have ha' : a.1 = k := by simpa [beq_iff_eq] using ha
      have h1 : (k == k') = false := by simp [beq_iff_eq]; exact fun h => hk h.symm
      have h2 : (a.1 == k') = false := by simp [ha', beq_iff_eq]; exact fun h => hk h.symm
      simpa [lookupFirst, List.find?, ha, h1, h2] using ih
    · by_cases hak : (a.1 == k') = true
      · simp [lookupFirst, List.find?, ha, hak]
      · simpa [lookupFirst, List.find?, ha, hak] using ih

theorem lookupFirst_append_self {α : Type} (k : String) (v : α)
    (l : List (String × α)) (h : l.any (fun p => p.1 == k) = false) :
    lookupFirst (l ++ [(k, v)]) k = some v := by
  induction l with
  | nil => simp [lookupFirst, List.find?]
  | cons a t ih =>
    simp only [List.any_cons, Bool.or_eq_false_iff] at h
    simpa [lookupFirst, List.find?, h.1] using ih h.2

theorem lookupFirst_append_other {α : Type} (k : String) (v : α) (k' : String)
    (hk : k' ≠ k) (l : List (String × α)) :
    lookupFirst (l ++ [(k, v)]) k' = lookupFirst l k' := by
  induction l with
  | nil =>
    have h1 : (k == k') = false := by simp [beq_iff_eq]; exact fun h => hk h.symm
    simp [lookupFirst, List.find?, h1]
  | cons a t ih =>
    by_cases hak : (a.1 == k') = true
    · simp [lookupFirst, List.find?, hak]
    · simpa [lookupFirst, List.find?, hak] using ih

/-- Setting a key makes it visible with the new value. -/
theorem lookupFirst_setFirst_self {α : Type} (l : List (String × α)) (k : String) (v : α) :
    lookupFirst (setFirst l k v) k = some v := by
  unfold setFirst
  by_cases h : l.any (fun p => p.1 == k) = true
  · simpa [h] using lookupFirst_map_replace_self k v l h
  · simp only [Bool.not_eq_true] at h
    simpa [h] using lookupFirst_append_self k v l h

/-- Setting a key leaves every other key unchanged. -/
theorem lookupFirst_setFirst_other {α : Type} (l : List (String × α)) (k : String) (v : α)
    (k' : String) (hk : k' ≠ k) :
    lookupFirst (setFirst l k v) k' = lookupFirst l k' := by
  unfold setFirst
  by_cases h : l.any (fun p => p.1 == k) = true
  · simpa [h] using lookupFirst_map_replace_other k v k' hk l
  · simp only [Bool.not_eq_true] at h
    simpa [h] using lookupFirst_append_other k v k' hk l

/-! ## Lemmas about the Event Writer -/

/-- The coupling invariant between the Deduplication Store and the Event
Store: a key is in the dedup store exactly when one row for it is
visible, and no key ever has more than one row. -/
def WriterInv (s : WriterState) : Prop :=
  ∀ k : String, countKey s.events k = if k ∈ s.dedup_keys then 1 else 0

theorem countKey_append (events : List EventMsg) (m : EventMsg) (k : String) :
    countKey (events ++ [m]) k =
      countKey events k + (if m.idempotency_key == k then 1 else 0) := by
  by_cases h : (m.idempotency_key == k) = true
  · simp [countKey, List.filter_append, h]
  · simp only [Bool.not_eq_true] at h
    simp [countKey, List.filter_append, h]

theorem writerInv_initial : WriterInv initialWriterState := by
  intro k
  simp [initialWriterState, countKey]

theorem writerInv_write (s : WriterState) (m : EventMsg) (h : WriterInv s) :
    WriterInv (write_if_absent s m) := by
  unfold write_if_absent
  by_cases hc : s.dedup_keys.contains m.idempotency_key = true
  · rw [if_pos hc]; exact h
  · rw [if_neg hc]
    have hmem : m.idempotency_key ∉ s.dedup_keys := by simpa using hc
    intro k
    by_cases hk : m.idempotency_key = k
    · subst hk
      have h0 : countKey s.events m.idempotency_key = 0 := by
        rw [h m.idempotency_key, if_neg hmem]
      simp [countKey_append, h0, List.mem_cons]
    · have h1 : (m.idempotency_key == k) = false := by simpa [beq_iff_eq] using hk
      have h2 : (k ∈ m.idempotency_key :: s.dedup_keys) ↔ k ∈ s.dedup_keys := by
        rw [List.mem_cons, or_iff_right (fun hh => hk hh.symm)]
      simp only [countKey_append, h1, Bool.false_eq_true, if_neg, Nat.add_zero,
        not_false_eq_true]
      rw [h k]
      by_cases hd : k ∈ s.dedup_keys
      · rw [if_pos hd, if_pos (h2.mpr hd)]
      · rw [if_neg hd, if_neg (fun hh => hd (h2.mp hh))]

theorem mem_write_mono (s : WriterState) (m : EventMsg) (k : String)
    (h : k ∈ s.dedup_keys) :
    k ∈ (write_if_absent s m).dedup_keys := by
  unfold write_if_absent
  by_cases hc : s.dedup_keys.contains m.idempotency_key = true
  · rw [if_pos hc]; exact h
  · rw [if_neg hc]; exact List.mem_cons_of_mem _ h

theorem mem_write_self (s : WriterState) (m : EventMsg) :
    m.idempotency_key ∈ (write_if_absent s m).dedup_keys := by
  unfold write_if_absent
  by_cases hc : s.dedup_keys.contains m.idempotency_key = true
  · rw [if_pos hc]; simpa using hc
  · rw [if_neg hc]; exact List.mem_cons_self _ _

theorem writerInv_processAll (s : WriterState) (msgs : List EventMsg) (h : WriterInv s) :
    WriterInv (processAll s msgs) := by
  induction msgs generalizing s with
  | nil => exact h
  | cons m t ih => exact ih (write_if_absent s m) (writerInv_write s m h)

theorem mem_processAll_mono (s : WriterState) (msgs : List EventMsg) (k : String)
    (h : k ∈ s.dedup_keys) :
    k ∈ (processAll s msgs).dedup_keys := by
  induction msgs generalizing s with
  | nil => exact h
  | cons m t ih => exact ih (write_if_absent s m) (mem_write_mono s m k h)

theorem mem_processAll_of_mem (s : WriterState) (msgs : List EventMsg) (m : EventMsg)
    (hm : m ∈ msgs) :
    m.idempotency_key ∈ (processAll s msgs).dedup_keys := by
  induction msgs generalizing s with
  | nil => cases hm
  | cons a t ih =>
    rcases List.mem_cons.mp hm with h | h
    · subst h
      exact mem_processAll_mono (write_if_absent s m) t m.idempotency_key
        (mem_write_self s m)
    · exact ih (write_if_absent s a) h

/-! ## Lemmas about the job state machine -/

theorem applyOp_terminal_fixed (st : JobStatus) (op : JobOp) (h : terminal st = true) :
    applyOp st op = st := by
  cases st <;> simp [terminal] at h <;> cases op <;> rfl

theorem foldl_applyOp_terminal_fixed (st : JobStatus) (ops : List JobOp)
    (h : terminal st = true) :
    List.foldl applyOp st ops = st := by
  induction ops with
  | nil => rfl
  | cons o t ih => rw [List.foldl_cons, applyOp_terminal_fixed st o h]; exact ih

/-- The Authorization step never touches the Content-Type header. -/
theorem authStep_content_type (token : Option String) (hs : List (String × String)) :
    headersGet (authStep token hs) "Content-Type" = headersGet hs "Content-Type" := by
  cases token with
  | none => rfl
  | some t =>
    by_cases hemp : t.isEmpty = true
    · simp [authStep, hemp]
    · have hemp' : t.isEmpty = false := by simpa using hemp
      simp only [authStep, hemp', Bool.false_eq_true, if_neg, not_false_eq_true]
      exact lookupFirst_setFirst_other hs "Authorization" ("Bearer " ++ t) "Content-Type"
        (by decide)

/-- Auxiliary for C9: whatever the token, when the caller supplies no
Content-Type header `fetchWithAuth` sets it to "application/json". -/
theorem fetchWithAuthHeaders_content_type_aux (token : Option String)
    (hs : List (String × String)) (h : headersGet hs "Content-Type" = none) :
    headersGet (fetchWithAuthHeaders token hs) "Content-Type" = some "application/json" := by
  show headersGet (headersSet (authStep token hs) "Content-Type"
    (contentTypeDefault (headersGet (authStep token hs) "Content-Type"))) "Content-Type"
      = some "application/json"
  rw [authStep_content_type token hs, h]
  exact lookupFirst_setFirst_self (authStep token hs) "Content-Type" "application/json"

/-! ## Claims -/

/-- C1: for every accepted `idempotency_key`, no matter how many times
the same event message is delivered or redelivered (modelled as an
arbitrary delivery sequence, duplicates included), exactly one Event row
for that key is visible in the Event Store after the Event Writer has
processed the sequence. -/
theorem eventStore_exactly_one_row_per_key (msgs : List EventMsg) (k : String)
    (h : ∃ m ∈ msgs, m.idempotency_key = k) :
    countKey (processAll initialWriterState msgs).events k = 1 := by
  obtain ⟨m, hm, hk⟩ := h
  have hinv := writerInv_processAll initialWriterState msgs writerInv_initial
  have hc : k ∈ (processAll initialWriterState msgs).dedup_keys := by
    subst hk
    exact mem_processAll_of_mem initialWriterState msgs m hm
  rw [hinv k, if_pos hc]

/-- Witness for C1: the key "evt-42" delivered three times produces
exactly one Event row. -/
theorem eventStore_exactly_one_row_per_key_witness :
    countKey (processAll initialWriterState
      [⟨"evt-42", 1, "client", "p"⟩, ⟨"evt-42", 1, "client", "p"⟩,
       ⟨"evt-42", 1, "client", "p"⟩]).events "evt-42" = 1 :=
  eventStore_exactly_one_row_per_key _ _ ⟨⟨"evt-42", 1, "client", "p"⟩, by simp, rfl⟩

/-- C2: once a job's status is terminal (SUCCEEDED or FAILED), no
sequence of Control Plane / Analysis Worker compare-and-swap operations
ever moves it back to QUEUED or RUNNING. -/
theorem jobStatus_no_regression_from_terminal (st : JobStatus) (ops : List JobOp)
    (h : terminal st = true) :
    List.foldl applyOp st ops ≠ JobStatus.QUEUED ∧
    List.foldl applyOp st ops ≠ JobStatus.RUNNING := by
  rw [foldl_applyOp_terminal_fixed st ops h]
  cases st <;> simp [terminal] at h ⊢

/-- Witness for C2: a SUCCEEDED job hit by a claim and a fail stays
terminal. -/
theorem jobStatus_no_regression_witness :
    List.foldl applyOp JobStatus.SUCCEEDED [JobOp.claimJob, JobOp.fail "x", JobOp.cancel]
        ≠ JobStatus.QUEUED ∧
    List.foldl applyOp JobStatus.SUCCEEDED [JobOp.claimJob, JobOp.fail "x", JobOp.cancel]
        ≠ JobStatus.RUNNING :=
  jobStatus_no_regression_from_terminal JobStatus.SUCCEEDED
    [JobOp.claimJob, JobOp.fail "x", JobOp.cancel] rfl

/-- C3: submitting a job whose `model_name` is not registered fails
synchronously with `UnknownModel` (a 400-class error) and leaves the Job
Registry unchanged. -/
theorem submit_job_unknown_model_rejected (registry : List String) (jobs : List Job)
    (jid model_name params : String) (priority : Int) (ser : Bool)
    (h : registry.contains model_name = false) :
    submit_job registry jobs jid model_name params priority ser
      = (Except.error SubmitError.UnknownModel, jobs) ∧
    400 ≤ submitErrorStatus SubmitError.UnknownModel ∧
    submitErrorStatus SubmitError.UnknownModel < 500 := by
  refine ⟨?_, by decide, by decide⟩
  unfold submit_job
  rw [h]
  exact rfl

/-- Witness for C3: submitting model "psm" against a registry holding
only "did" is rejected and creates no Job row. -/
theorem submit_job_unknown_model_witness :
    submit_job ["did"] [] "job-1" "psm" "p" 0 true
      = (Except.error SubmitError.UnknownModel, []) ∧
    400 ≤ submitErrorStatus SubmitError.UnknownModel ∧
    submitErrorStatus SubmitError.UnknownModel < 500 :=
  submit_job_unknown_model_rejected ["did"] [] "job-1" "psm" "p" 0 true (by decide)

/-- C4: a plugin that raises (or times out) during execution leaves the
job FAILED with a non-empty error and the Results Store untouched; a
Result row appears only on success, together with SUCCEEDED. -/
theorem process_job_failure_and_success_contract (j : Job)
    (results : List (String × String)) (m r : String) :
    ((process_job j results (PluginOutcome.raised m)).1.status = JobStatus.FAILED ∧
     (process_job j results (PluginOutcome.raised m)).1.error
        = some ("PluginExecutionError: " ++ m) ∧
     0 < ("PluginExecutionError: " ++ m).length ∧
     (process_job j results (PluginOutcome.raised m)).2 = results) ∧
    ((process_job j results PluginOutcome.timedOut).1.status = JobStatus.FAILED ∧
     (process_job j results PluginOutcome.timedOut).1.error
        = some "PluginTimeout: execution exceeded the configured timeout" ∧
     0 < "PluginTimeout: execution exceeded the configured timeout".length ∧
     (process_job j results PluginOutcome.timedOut).2 = results) ∧
    ((process_job j results (PluginOutcome.success r)).1.status = JobStatus.SUCCEEDED ∧
     resultFor (process_job j results (PluginOutcome.success r)).2 j.job_id = some r) := by
  refine ⟨⟨rfl, rfl, ?_, rfl⟩, ⟨rfl, rfl, by decide, rfl⟩, rfl, ?_⟩
  · have h22 : 0 < "PluginExecutionError: ".length := by decide
    rw [String.length_append]
    omega
  · show resultFor (upsertResult results j.job_id r) j.job_id = some r
    unfold resultFor upsertResult
    exact lookupFirst_setFirst_self results j.job_id r

/-- C5 counterexample: the upload handler of src/unnamed/part_007 does
not follow the signed-URL flow — its very first request carries the file
bytes in a multipart form POSTed to "/api/ingest". -/
theorem upload_flow_counterexample :
    usesSignedUrlFlow handleUploadTrace = false ∧
    handleUploadTrace = [ingestRequest] ∧
    carriesFileBytes ingestRequest = true ∧
    ingestRequest.path = "/api/ingest" := by decide

/-- C5 (amended): the FileUpload.jsx upload flow first POSTs to
/v1/uploads/url and then PUTs the raw file bytes to the returned url,
sending file bytes nowhere else; the part_007 upload handler instead
never calls /v1/uploads/url and POSTs the file bytes as multipart form
data directly to the /api/ingest endpoint. -/
theorem upload_flow_amended (filename url : String) (i d : CallOutcome) :
    usesSignedUrlFlow (uploadJsxTrace filename url) = true ∧
    (uploadJsxTrace filename url).head? = some
      { method := "POST", path := "/v1/uploads/url",
        body := BodyKind.jsonBody ("\x7b\"filename\":\"" ++ filename ++ "\"\x7d") } ∧
    ((handleUpload true i d).2.all (fun rq => !(rq.path == "/v1/uploads/url"))) = true ∧
    (handleUpload true i d).2.head? = some ingestRequest ∧
    carriesFileBytes ingestRequest = true := by
  refine ⟨rfl, rfl, ?_, ?_, rfl⟩
  · cases i <;> cases d <;> rfl
  · cases i <;> cases d <;> rfl

/-- C6 counterexample: the Terraform configuration contains a route by
which an object created in the uploads bucket reaches the Event Store
without passing through the raw-events message path. -/
theorem uploads_bypass_counterexample :
    ¬ (storeBypassRoutes (pubsubTf "cfap-platform-dev") "cfap-platform-dev"
        (uploads_bucket "cfap-platform-dev") = []) := by decide

/-- C6 (amended): object-creation events on the uploads bucket are
published to the raw-events topic via the uploads_to_pubsub storage
notification, but they also reach the Event Store by a bypassing route:
the csv-ingest Cloud Function is triggered directly by object
finalization on the same bucket and writes into standard_events. -/
theorem uploads_notification_and_bypass (project_id : String) :
    notifiesRawEvents (pubsubTf project_id) (uploads_bucket project_id) = true ∧
    storeBypassRoutes (pubsubTf project_id) project_id (uploads_bucket project_id) =
      [ { name := "csv-ingest", entry_point := "gcs_csv_to_bq",
          trigger_event_type := "google.storage.object.finalize",
          trigger_resource := uploads_bucket project_id,
          target_table := standard_events_table project_id } ] := by
  constructor
  · simp [notifiesRawEvents, pubsubTf]
  · simp [storeBypassRoutes, pubsubTf]

/-- C7 counterexample: with no user signed in, a request whose caller
already supplied an Authorization header still goes out with that
header — refuting "no Authorization header" as stated. -/
theorem fetchWithAuth_no_user_header_counterexample :
    ¬ (headersGet (fetchWithAuthHeaders none [("Authorization", "Bearer stale")])
        "Authorization" = none) := by decide

/-- C7 (amended): when a user is signed in (non-empty ID token) the
request carries Authorization "Bearer " ++ token, whatever headers the
caller supplied; when no user is signed in the request is still sent and
`fetchWithAuth` adds no Authorization header — the outgoing request's
Authorization header is exactly the one the caller supplied in
options.headers, and absent when the caller supplied none. -/
theorem fetchWithAuth_authorization_amended (t : String) (hs : List (String × String))
    (ht : t.isEmpty = false) :
    headersGet (fetchWithAuthHeaders (some t) hs) "Authorization"
      = some ("Bearer " ++ t) ∧
    headersGet (fetchWithAuthHeaders none hs) "Authorization"
      = headersGet hs "Authorization" := by
  constructor
  · have hauth : authStep (some t) hs = headersSet hs "Authorization" ("Bearer " ++ t) := by
      simp [authStep, ht]
    simp only [fetchWithAuthHeaders, hauth]
    unfold headersGet headersSet
    rw [lookupFirst_setFirst_other _ "Content-Type" _ "Authorization" (by decide)]
    exact lookupFirst_setFirst_self hs "Authorization" ("Bearer " ++ t)
  · show headersGet (headersSet (authStep none hs) "Content-Type"
      (contentTypeDefault (headersGet (authStep none hs) "Content-Type"))) "Authorization"
        = headersGet hs "Authorization"
    unfold headersGet headersSet
    rw [lookupFirst_setFirst_other _ "Content-Type" _ "Authorization" (by decide)]
    rfl

/-- Witness for C7: a signed-in call overrides a caller-supplied stale
Authorization header; the same call without a user passes it through. -/
theorem fetchWithAuth_authorization_amended_witness :
    headersGet (fetchWithAuthHeaders (some "tok123") [("Authorization", "Bearer stale")])
        "Authorization" = some ("Bearer " ++ "tok123") ∧
    headersGet (fetchWithAuthHeaders none [("Authorization", "Bearer stale")])
        "Authorization"
      = headersGet [("Authorization", "Bearer stale")] "Authorization" :=
  fetchWithAuth_authorization_amended "tok123" [("Authorization", "Bearer stale")] rfl

/-- C8: a non-ok response makes `fetchWithAuth` throw an Error whose
message is "Request failed " ++ status ++ ": " ++ body text (hence
contains both) and which carries the response object; an ok response
returns the parsed JSON body, which is null (`none`) when the body is
not valid JSON. -/
theorem fetchWithAuth_response_contract (res : HttpResponse) :
    (res.ok = false →
      fetchWithAuthResponse res = Except.error
        { message := "Request failed " ++ toString res.status ++ ": " ++ res.text,
          response := res }) ∧
    (res.ok = true → fetchWithAuthResponse res = Except.ok res.jsonResult) ∧
    (res.ok = true → res.jsonResult = none →
      fetchWithAuthResponse res = Except.ok none) := by
  refine ⟨fun h => ?_, fun h => ?_, fun h hj => ?_⟩ <;> simp [fetchWithAuthResponse, h, *]

/-- Witness for C8: a concrete 401 response produces the thrown error
with the formatted message and the attached response. -/
theorem fetchWithAuth_response_contract_witness :
    fetchWithAuthResponse
        { ok := false, status := 401, text := "Unauthenticated", jsonResult := none }
      = Except.error
        { message := "Request failed " ++ toString (401 : Nat) ++ ": " ++ "Unauthenticated",
          response :=
            { ok := false, status := 401, text := "Unauthenticated", jsonResult := none } } :=
  (fetchWithAuth_response_contract
    { ok := false, status := 401, text := "Unauthenticated", jsonResult := none }).1 rfl

/-- C9: when the caller supplies no Content-Type header, the outgoing
request's Content-Type is "application/json" regardless of token and
body; in particular the part_007 ingest call passes `headers: \x7b\x7d`,
so its multipart FormData POST to /api/ingest goes out with Content-Type
"application/json". -/
theorem fetchWithAuth_default_content_type (token : Option String)
    (hs : List (String × String)) (h : headersGet hs "Content-Type" = none) :
    headersGet (fetchWithAuthHeaders token hs) "Content-Type"
      = some "application/json" ∧
    headersGet (fetchWithAuthHeaders token []) "Content-Type"
      = some "application/json" ∧
    ingestRequest.body = BodyKind.formWithFile :=
  ⟨fetchWithAuthHeaders_content_type_aux token hs h,
   fetchWithAuthHeaders_content_type_aux token [] rfl, rfl⟩

/-- Witness for C9: the part_007 ingest call (empty caller headers) with
a signed-in user. -/
theorem fetchWithAuth_default_content_type_witness :
    headersGet (fetchWithAuthHeaders (some "tok123") [("Accept", "text/plain")])
        "Content-Type" = some "application/json" ∧
    headersGet (fetchWithAuthHeaders (some "tok123") []) "Content-Type"
      = some "application/json" ∧
    ingestRequest.body = BodyKind.formWithFile :=
  fetchWithAuth_default_content_type (some "tok123") [("Accept", "text/plain")] rfl

/-- C10: when the ingest POST throws, `handleUpload` falls back to
POST /api/analysis/did with body `\x7b"campaign_id":"demo-campaign"\x7d`
and reports demo success if it succeeds; the status is an error message
only when both calls throw (otherwise it is one of the two success
messages). -/
theorem handleUpload_fallback_contract (e m : String) :
    handleUpload true (CallOutcome.thrown e) CallOutcome.resolved
      = (some "Processed by analysis endpoint (demo)", [ingestRequest, didRequest]) ∧
    handleUpload true (CallOutcome.thrown e) (CallOutcome.thrown m)
      = (some ("Error: " ++ m), [ingestRequest, didRequest]) ∧
    didRequest = { method := "POST", path := "/api/analysis/did",
                   body := BodyKind.jsonBody "\x7b\"campaign_id\":\"demo-campaign\"\x7d" } ∧
    (∀ i d : CallOutcome, (i = CallOutcome.resolved ∨ d = CallOutcome.resolved) →
      (handleUpload true i d).1 = some "Uploaded to ingest endpoint" ∨
      (handleUpload true i d).1 = some "Processed by analysis endpoint (demo)") := by
  refine ⟨rfl, rfl, rfl, ?_⟩
  intro i d hid
  cases i with
  | resolved => left; rfl
  | thrown e2 =>
    cases d with
    | resolved => right; rfl
    | thrown m2 => rcases hid with h | h <;> exact absurd h (by simp)

/-- Witness for C10: a failing ingest call followed by a successful
fallback reports demo success. -/
theorem handleUpload_fallback_contract_witness :
    handleUpload true (CallOutcome.thrown "network error") CallOutcome.resolved
      = (some "Processed by analysis endpoint (demo)", [ingestRequest, didRequest]) :=
  (handleUpload_fallback_contract "network error" "x").1

end CFAP
